import Mathlib

/-!
Verification development for the kplex TCP transport (src/tcp.c).

The file shallowly embeds the functions of tcp.c that the claims concern:

* `reread` (tcp.c:265-304), the reader-side recovery routine;
* `reconnect` (tcp.c:230-255), the writer-side recovery routine;
* the resolver-retry loop of `do_connect` (tcp.c:173-183);
* `establish_keepalive` (tcp.c:100-151), on the Linux compilation path;
* `parse_preamble` (tcp.c:631-737);
* `ifdup_tcp` (tcp.c:20-35) and `cleanup_tcp` (tcp.c:43-68);
* sequential models of the `read_tcp` (tcp.c:306-390) and `write_tcp`
  (tcp.c:392-492) loops, seen from one thread, with an explicit count of
  accesses to the shared record, and
* a small-step interleaving model of the paired reader/writer fault-recovery
  protocol of `read_tcp`/`write_tcp` on a persistent bidirectional interface.

Syscall and collaborator outcomes (read/write results, setsockopt and fcntl
results, getaddrinfo results, queue contents) are supplied by environment
records, so every definition is executable.  Machine-level values use Nat/Int
with the Linux numeric constants spelled out.  The constant MAXPREAMBLE is
defined in tcp.h, which is not part of src/; the parse functions therefore
take the cap as an explicit parameter and the theorems quantify over it.
-/

namespace Kplex

/-- Linux errno value for EAGAIN. -/
def EAGAIN : Nat := 11

/-- Linux errno value for EWOULDBLOCK (identical to EAGAIN on Linux). -/
def EWOULDBLOCK : Nat := 11

/-- Linux errno value for EPIPE, a typical write failure. -/
def EPIPE : Nat := 32

/-- glibc getaddrinfo error: invalid flags. -/
def EAI_BADFLAGS : Int := -1

/-- glibc getaddrinfo error: name or service not known. -/
def EAI_NONAME : Int := -2

/-- glibc getaddrinfo error: temporary failure in name resolution. -/
def EAI_AGAIN : Int := -3

/-- glibc getaddrinfo error: non-recoverable failure in name resolution. -/
def EAI_FAIL : Int := -4

/-- glibc getaddrinfo error: service not supported for socket type. -/
def EAI_SERVICE : Int := -8

/-- glibc getaddrinfo error: out of memory (a structural, non-transient error). -/
def EAI_MEMORY : Int := -10

/-! ## reread (tcp.c:265-304)

The environment records the outcome of each syscall `reread` makes: the
two fcntl calls that switch the socket to non-blocking mode, the single
non-blocking read (result and errno), the result of `do_connect` if it is
reached, and the fcntl call that restores the original flags.  The output
records the returned value, whether `do_connect` was invoked, and whether
the flag-restoring fcntl was executed successfully. -/

structure RereadEnv where
  getflOk : Bool
  setflNbOk : Bool
  readRes : Int
  readErrno : Nat
  connectRes : Int
  setflRestoreOk : Bool
  deriving DecidableEq

structure RereadOut where
  result : Int
  calledConnect : Bool
  restoredFlags : Bool
  deriving DecidableEq

/-- Shallow embedding of `reread`, tcp.c:265-304.  Line by line:
fcntl F_GETFL failure returns -1 (275-278); fcntl F_SETFL O_NONBLOCK failure
returns -1 (280-284); the non-blocking read (286): a result `<= 0` calls
`do_connect` when it is 0 or the errno is neither EWOULDBLOCK nor EAGAIN,
otherwise sets the result to 0 without reconnecting (287-292); a result
`>= 0` restores the original flags, turning the result into -1 when that
fcntl fails (295-301). -/
def reread (e : RereadEnv) : RereadOut :=
  if !e.getflOk then ⟨-1, false, false⟩
  else if !e.setflNbOk then ⟨-1, false, false⟩
  else
    let afterRead :=
      if e.readRes ≤ 0 then
        if e.readRes == 0 || (e.readErrno != EWOULDBLOCK && e.readErrno != EAGAIN) then
          (e.connectRes, true)
        else ((0 : Int), false)
      else (e.readRes, false)
    if 0 ≤ afterRead.1 then
      if !e.setflRestoreOk then ⟨-1, afterRead.2, false⟩
      else ⟨afterRead.1, afterRead.2, true⟩
    else ⟨afterRead.1, afterRead.2, false⟩

/-! ## reconnect (tcp.c:230-255) -/

structure ReconnectEnv where
  connectOk : Bool
  deriving DecidableEq

structure ReconnectOut where
  slept : Bool
  flushed : Bool
  ret : Int
  deriving DecidableEq

/-- Shallow embedding of `reconnect`, tcp.c:230-255.  The switch on the
errno that caused the write failure (240-245) sleeps `retry` seconds except
for EAGAIN; a failed `do_connect` is returned as is without touching the
queue (247-249); a successful one is followed by `flush_queue` (251-252). -/
def reconnect (err : Nat) (env : ReconnectEnv) : ReconnectOut :=
  let slept := if err = EAGAIN then false else true
  if env.connectOk then ⟨slept, true, 0⟩ else ⟨slept, false, -1⟩

/-! ## Resolver-retry loop of do_connect (tcp.c:173-183)

The environment is the script of successive `getaddrinfo` results (0 means
success).  The output counts the `mysleep(retry)` calls made before the loop
either proceeds to the connection phase, gives up, or exhausts the script
(i.e. is still retrying). -/

/-- Condition of tcp.c:178: a getaddrinfo error on which `do_connect` gives
up (returns -1) rather than sleeping and retrying. -/
def gaiFatal (err : Int) : Bool :=
  err != EAI_NONAME && err != EAI_SERVICE && err != EAI_AGAIN && err != EAI_FAIL

inductive ResolveOut where
  | resolved (rest : List Int)
  | failed (sleeps : Nat)
  | exhausted (sleeps : Nat)
  deriving DecidableEq

/-- Shallow embedding of the resolver part of `do_connect`'s retry loop,
tcp.c:173-183: a zero result proceeds; a fatal error (tcp.c:178-180) returns
-1 immediately; any other error sleeps `retry` seconds (tcp.c:181) and
retries the lookup. -/
def do_connect_resolve : List Int → ResolveOut
  | [] => .exhausted 0
  | err :: rest =>
    if err = 0 then .resolved rest
    else if gaiFatal err then .failed 0
    else
      match do_connect_resolve rest with
      | .resolved r => .resolved r
      | .failed n => .failed (n + 1)
      | .exhausted n => .exhausted (n + 1)

/-! ## establish_keepalive (tcp.c:100-151), Linux compilation path -/

structure KeepaliveParams where
  keepalive : Bool
  keepidle : Nat
  keepintvl : Nat
  keepcnt : Nat
  tvSec : Int
  deriving DecidableEq

structure KeepaliveEnv where
  keepaliveOk : Bool
  keepidleOk : Bool
  keepintvlOk : Bool
  keepcntOk : Bool
  sndtimeoOk : Bool
  sndbufOk : Bool
  deriving DecidableEq

structure KeepaliveOut where
  err : Int
  loggedSndTimeo : Bool
  deriving DecidableEq

/-- Shallow embedding of `establish_keepalive`, tcp.c:100-151, compiled
without __APPLE__.  A failing SO_KEEPALIVE setsockopt is a hard failure
(106-110); failing keepidle/keepintvl/keepcnt setsockopts set err to -1
(112-139); the send-timeout block (142-149) logs when SO_SNDTIMEO or
SO_SNDBUF fails, and then sets `err = -1` whenever `tv.tv_sec` is nonzero:
in the source the `err=-1;` statement at tcp.c:148 stands outside the inner
`if` (only the logerr call is guarded), so it runs unconditionally once
`tv.tv_sec` is set.  This embedding reproduces that behaviour faithfully. -/
def establish_keepalive (p : KeepaliveParams) (e : KeepaliveEnv) : KeepaliveOut :=
  if p.keepalive && !e.keepaliveOk then ⟨-1, false⟩
  else
    let err1 : Int := if p.keepalive && (p.keepidle != 0) && !e.keepidleOk then -1 else 0
    let err2 : Int := if p.keepalive && (p.keepintvl != 0) && !e.keepintvlOk then -1 else err1
    let err3 : Int := if p.keepalive && (p.keepcnt != 0) && !e.keepcntOk then -1 else err2
    let logged := (p.tvSec != 0) && (!e.sndtimeoOk || !e.sndbufOk)
    let err4 : Int := if p.tvSec != 0 then -1 else err3
    ⟨err4, logged⟩

/-! ## parse_preamble (tcp.c:631-737)

The input is the byte sequence of the C string (so it contains no 0 byte in
practice; an explicit 0 byte is still handled exactly as the source handles
an early NUL).  The cap `m` stands for MAXPREAMBLE, whose value lives in
tcp.h (not part of src/); all theorems quantify over it. -/

inductive PreResult where
  | ok (bytes : List Nat)
  | tooLong
  | invalid
  deriving DecidableEq

/-- Test for an octal digit, tcp.c:696 (and 691-703). -/
def octDigit (c : Nat) : Bool := 48 ≤ c && c ≤ 55

/-- Value of a hex digit as read by tcp.c:677-684 ('0'-'9', 'a'-'f',
'A'-'F'), none when the character is not a hex digit. -/
def hexVal (c : Nat) : Option Nat :=
  if 48 ≤ c && c ≤ 57 then some (c - 48)
  else if 97 ≤ c && c ≤ 102 then some (c - 97 + 10)
  else if 65 ≤ c && c ≤ 70 then some (c - 65 + 10)
  else none

/-- Characters with a dedicated case in the escape switch of
tcp.c:641-689 (the simple escapes, the hex introducer `x`, and NUL); every
other character after a backslash falls into the default case of
tcp.c:690-710. -/
def simpleEscape (d : Nat) : Bool :=
  d == 97 || d == 98 || d == 102 || d == 110 || d == 114 || d == 116 ||
  d == 118 || d == 39 || d == 34 || d == 63 || d == 120 || d == 0

/-- Prepend a decoded byte to a successful parse, keeping errors. -/
def consByte (b : Nat) : PreResult → PreResult
  | .ok bs => .ok (b :: bs)
  | r => r

/-- Decode one item of the preamble string: the head character `c` together
with the rest of the input, returning the produced byte and how many
further characters of `rest` were consumed, or none on the parse failures
of tcp.c:639-713.  This is the body of one iteration of the `for` loop of
`parse_preamble`: the escape switch (641-711) with its simple escapes, the
two-hex-digit `\x` form (672-687) failing on a missing or non-hex digit,
the backslash-before-NUL failure (688-689), and the default case (690-710):
three octal digits build a value `tval`, a non-octal first digit emits that
character literally, a non-octal later digit fails, and the built value is
stored as `(unsigned char) tval` (truncation mod 256) when `tval < 512`.
A character other than a backslash passes through unchanged (712-713). -/
def decodeOne (c : Nat) (rest : List Nat) : Option (Nat × Nat) :=
  if c = 92 then
    match rest with
    | [] => none
    | d :: r2 =>
      if d = 97 then some (7, 1)
      else if d = 98 then some (8, 1)
      else if d = 102 then some (12, 1)
      else if d = 110 then some (10, 1)
      else if d = 114 then some (13, 1)
      else if d = 116 then some (9, 1)
      else if d = 118 then some (11, 1)
      else if d = 39 then some (39, 1)
      else if d = 34 then some (34, 1)
      else if d = 63 then some (63, 1)
      else if d = 120 then
        match r2 with
        | h1 :: h2 :: _ =>
          match hexVal h1, hexVal h2 with
          | some v1, some v2 => some (v1 * 16 + v2, 3)
          | _, _ => none
        | _ => none
      else if d = 0 then none
      else if octDigit d then
        match r2 with
        | e2 :: f2 :: _ =>
          if octDigit e2 && octDigit f2 then
            let tval := (d - 48) * 64 + (e2 - 48) * 8 + (f2 - 48)
            if tval < 512 then some (tval % 256, 3) else none
          else none
        | _ => none
      else some (d, 1)
  else some (c, 0)

/-- Shallow embedding of the `for` loop of `parse_preamble`,
tcp.c:639-719, driven by `decodeOne`.  `count` is the number of output
bytes produced so far (`count` in the source, incremented once per
iteration, each of which stores exactly one byte).  The loop runs while
input remains and `count < m`; on exit, `count == m` is the too-long
failure of tcp.c:715-719. -/
def parseLoop (m : Nat) (count : Nat) (s : List Nat) : PreResult :=
  match s with
  | [] => if count = m then .tooLong else .ok []
  | c :: rest =>
    if count = m then .tooLong
    else
      match decodeOne c rest with
      | none => .invalid
      | some (b, k) => consByte b (parseLoop m (count + 1) (rest.drop k))
termination_by s.length
decreasing_by
  simp only [List.length_cons, List.length_drop]
  omega

/-- Shallow embedding of `parse_preamble`, tcp.c:631-737 (the malloc
failure paths of 721-733 are not modelled: they depend on the allocator,
not on the input). -/
def parse_preamble (m : Nat) (s : List Nat) : PreResult := parseLoop m 0 s

/-! ## ifdup_tcp (tcp.c:20-35) and cleanup_tcp (tcp.c:43-68)

The heap maps addresses to allocated `if_tcp_shared` records; an `if_tcp`
holds its descriptor and an optional address of its shared record.  The
resources released by `cleanup_tcp` are reported as an explicit list. -/

structure SharedRec where
  donewith : Nat
  hasHost : Bool
  hasPort : Bool
  hasPreamble : Bool
  deriving DecidableEq

structure IfTcp where
  fd : Int
  shared : Option Nat
  deriving DecidableEq

inductive Res where
  | port
  | host
  | preambleStr
  | preambleRec
  | mutexDestroy
  | condDestroy
  | sharedFree
  | fdClose
  deriving DecidableEq

/-- Shallow embedding of `ifdup_tcp`, tcp.c:20-35: the new `if_tcp` is a
byte-for-byte copy of the old one (memcpy, line 29), hence holds the same
`shared` pointer; when a shared record is present its `donewith` field is
reset to 0 (lines 31-32). -/
def ifdup_tcp (h : Nat → Option SharedRec) (i : IfTcp) :
    IfTcp × (Nat → Option SharedRec) :=
  match i.shared with
  | none => (i, h)
  | some a =>
    (i, fun x => if x = a then (h a).map (fun r => { r with donewith := 0 }) else h x)

/-- Shallow embedding of `cleanup_tcp`, tcp.c:43-68: with a shared record,
a zero `donewith` is incremented and the routine returns early, freeing
nothing and not even closing the descriptor (50-53); otherwise the port and
host strings (54-57), the preamble string and record (58-61) are freed, the
mutex and condition variable destroyed (62-63), the shared record freed
(64) and the descriptor closed (67).  Without a shared record only the
descriptor is closed. -/
def cleanup_tcp (h : Nat → Option SharedRec) (i : IfTcp) :
    (Nat → Option SharedRec) × List Res :=
  match i.shared with
  | none => (h, [Res.fdClose])
  | some a =>
    match h a with
    | none => (h, [Res.fdClose])
    | some r =>
      if r.donewith = 0 then
        (fun x => if x = a then some { r with donewith := r.donewith + 1 } else h x, [])
      else
        (fun x => if x = a then none else h x,
          (if r.hasPort then [Res.port] else []) ++
          (if r.hasHost then [Res.host] else []) ++
          (if r.hasPreamble then [Res.preambleStr, Res.preambleRec] else []) ++
          [Res.mutexDestroy, Res.condDestroy, Res.sharedFree, Res.fdClose])

/-! ## Sequential models of read_tcp (tcp.c:306-390) and write_tcp
(tcp.c:392-492)

One thread's view: the environment lists, per loop iteration, what the
thread observes (whether `ift->fd == -1` at critical entry, the read/writev
result, whether `shared->fixing` was set in the failure branch, the
recovery result).  The second component of the output counts the blocks of
accesses to the shared record (mutex lock/unlock, `critical`, `fixing`,
condition variable); it stays untouched on every path that the source
reaches without passing a `flag_test(ifa, F_PERSIST)` guard. -/

structure RdIter where
  fdNeg : Bool
  readRes : Int
  fixing : Bool
  rereadRes : Int
  deriving DecidableEq

/-- Sequential model of `read_tcp`, tcp.c:306-390.  Per iteration: the
persistent entry block locks the mutex, tests `fd`, bumps `critical` and
unlocks (330-341), returning -1 when `fd == -1`; the blocking read (347);
on a result `<= 0` a non-persistent interface breaks out returning that
result (355-356), a persistent one enters the failure branch under the
mutex (357-380): with `fixing` set it signals and waits, otherwise it runs
`reread` and loops while the result stays `<= 0`; a positive read on a
persistent interface passes the exit block (381-387).  The returned pair is
(result of read_tcp if it returned within the scripted iterations, number
of shared-record access blocks). -/
def read_tcp_model : Bool → List RdIter → Nat → Option Int × Nat
  | _, [], acc => (none, acc)
  | persist, it :: rest, acc =>
    if persist then
      let acc1 := acc + 1
      if it.fdNeg then (some (-1), acc1)
      else
        if it.readRes ≤ 0 then
          let acc2 := acc1 + 1
          if it.fixing then read_tcp_model persist rest acc2
          else
            if it.rereadRes ≤ 0 then read_tcp_model persist rest acc2
            else (some it.rereadRes, acc2)
        else (some it.readRes, acc1 + 1)
    else
      if it.readRes ≤ 0 then (some it.readRes, acc)
      else (some it.readRes, acc)

structure WrIter where
  hasMsg : Bool
  gettagFail : Bool
  fdNeg : Bool
  writevFail : Bool
  fixing : Bool
  reconnectFail : Bool
  deriving DecidableEq

/-- Sequential model of `write_tcp`, tcp.c:392-492.  Per iteration: an
empty queue breaks the loop (416-417); a failing `gettag` disables tag
output permanently (419-428); the persistent entry block (434-445) locks
the mutex, tests `fd`, bumps `critical`, and breaks out when `fd == -1`;
a failing `writev` on a non-persistent interface breaks out (450-453), on a
persistent one enters the failure branch under the mutex (454-477), where a
failing `reconnect` sets `done` and ends the loop; a successful `writev` on
a persistent interface passes the exit block (478-484).  The result is the
number of shared-record access blocks. -/
def write_tcp_model : Bool → Bool → List WrIter → Nat → Nat
  | _, _, [], acc => acc
  | persist, tagflags, it :: rest, acc =>
    if !it.hasMsg then acc
    else
      let tagflags2 := if tagflags && it.gettagFail then false else tagflags
      if persist then
        let acc1 := acc + 1
        if it.fdNeg then acc1
        else
          if it.writevFail then
            let acc2 := acc1 + 1
            if it.fixing then write_tcp_model persist tagflags2 rest acc2
            else if it.reconnectFail then acc2
            else write_tcp_model persist tagflags2 rest acc2
          else write_tcp_model persist tagflags2 rest (acc1 + 1)
      else
        if it.writevFail then acc
        else write_tcp_model persist tagflags2 rest acc

/-! ## Interleaving model of the paired fault-recovery protocol
(tcp.c:306-390 and tcp.c:392-492, persistent bidirectional interface)

Two threads, the reader R and the writer W, each own an `if_tcp` record
(descriptor fields `fdR`, `fdW`) and share one `if_tcp_shared` record
(`critical`, `fixing`, mutex `t_mutex`, condition variable `fv`).  Every
mutex-protected block of the source is one atomic step; the suspension
points (the blocking read/writev and the condition-variable waits) are the
thread locations.  Locations:

* `entry`   - at the top of the loop, outside the critical region;
* `busy`    - inside the critical region, in the blocking read/writev;
* `waitSib` - fixer-to-be: set `fixing`, did `shutdown`, waiting on `fv`
              for the sibling to leave its syscall (tcp.c:362-365/459-462);
* `wokenSib`- fixer signalled by the sibling, about to run recovery;
* `waitFix` - non-fixer: saw `fixing` set, signalled and is waiting on `fv`
              for the fixer to finish (tcp.c:358-360/455-457);
* `afterFix`- non-fixer released by the fixer, about to decrement
              `critical` and loop (tcp.c:379/476);
* `dead`    - thread exited its loop.

A `pthread_cond_signal` wakes the sibling only if it is actually waiting:
`wake` models the signal sent to a fixer parked in `waitSib`, `wakeFix` the
fixer's closing signal to a sibling parked in `waitFix`; a signal sent when
the sibling is not waiting is lost, exactly as in pthreads.  Reader
recovery is `reread`: it can only succeed when the reader's descriptor is
not -1, because `reread` starts with `fcntl(ift->fd, F_GETFL)`
(tcp.c:275), which fails with EBADF on descriptor -1 and makes `reread`
return -1.  Writer recovery is `reconnect`/`do_connect`, which never reads
the stale descriptor and can succeed regardless of it.  On success
`do_connect` stores the new descriptor and mirrors it into the pair's
`if_tcp` (tcp.c:205-208).  On terminal failure the reader sets both
descriptors to -1 (tcp.c:367-371); the writer sets only the sibling's
descriptor to -1 and marks itself done (tcp.c:464-470). -/

inductive Loc where
  | entry
  | busy
  | waitSib
  | wokenSib
  | waitFix
  | afterFix
  | dead
  deriving DecidableEq

structure Sys where
  rLoc : Loc
  wLoc : Loc
  fdR : Int
  fdW : Int
  critical : Nat
  fixing : Bool
  deriving DecidableEq

/-- Effect on the sibling of a `pthread_cond_signal` aimed at a fixer
waiting in `waitSib`; lost if the sibling is not parked there. -/
def wake (l : Loc) : Loc := if l = Loc.waitSib then Loc.wokenSib else l

/-- Effect on the sibling of the fixer's closing `pthread_cond_signal`
(tcp.c:374-377/471-474); lost if the sibling is not parked in `waitFix`. -/
def wakeFix (l : Loc) : Loc := if l = Loc.waitFix then Loc.afterFix else l

/-- Result state of the reader's direct recovery failure (tcp.c:367-373,
reached with `fixing` clear): `reread` returned -1, both descriptors are
set to -1, `critical` is decremented (379) and the reader loops. -/
def rdDirectRecoverFail (s : Sys) : Sys :=
  { s with rLoc := Loc.entry, fdR := -1, fdW := -1, critical := s.critical - 1 }

/-- Result state of the reader's recovery failure after having been parked
as fixer (tcp.c:362-377): as `rdDirectRecoverFail`, plus clearing `fixing`
and signalling the sibling if it waits in `waitFix` (374-377). -/
def rdWokenRecoverFail (s : Sys) : Sys :=
  { s with rLoc := Loc.entry, fdR := -1, fdW := -1, fixing := false,
           wLoc := if s.fixing then wakeFix s.wLoc else s.wLoc,
           critical := s.critical - 1 }

/-- Result state of the writer's direct recovery failure (tcp.c:464-470,
reached with `fixing` clear): `reconnect` returned -1, the sibling's
descriptor is set to -1, the writer's own descriptor is left unchanged,
`done` is set so the writer exits its loop after decrementing `critical`
(476). -/
def wrDirectRecoverFail (s : Sys) : Sys :=
  { s with wLoc := Loc.dead, fdR := -1, critical := s.critical - 1 }

/-- Result state of the writer's recovery failure after having been parked
as fixer: as `wrDirectRecoverFail`, plus clearing `fixing` and signalling a
sibling parked in `waitFix` (tcp.c:471-474). -/
def wrWokenRecoverFail (s : Sys) : Sys :=
  { s with wLoc := Loc.dead, fdR := -1, fixing := false,
           rLoc := if s.fixing then wakeFix s.rLoc else s.rLoc,
           critical := s.critical - 1 }

/-- One atomic step of the paired protocol.  Reader constructors embed
tcp.c:329-390, writer constructors tcp.c:414-491; guards are the conditions
the source tests under `t_mutex`. -/
inductive Step : Sys → Sys → Prop where
  | rEnterBusy (s : Sys) (h1 : s.rLoc = Loc.entry) (h2 : s.fdR ≠ -1) :
      Step s { s with rLoc := Loc.busy, critical := s.critical + 1 }
  | rEnterDead (s : Sys) (h1 : s.rLoc = Loc.entry) (h2 : s.fdR = -1) :
      Step s { s with rLoc := Loc.dead }
  | rIoOk (s : Sys) (h1 : s.rLoc = Loc.busy) :
      Step s { s with rLoc := Loc.entry, critical := s.critical - 1,
                      wLoc := if s.fixing then wake s.wLoc else s.wLoc }
  | rIoFailFixing (s : Sys) (h1 : s.rLoc = Loc.busy) (h2 : s.fixing = true) :
      Step s { s with rLoc := Loc.waitFix, wLoc := wake s.wLoc }
  | rIoFailDefer (s : Sys) (h1 : s.rLoc = Loc.busy) (h2 : s.fixing = false)
      (h3 : s.critical = 2) :
      Step s { s with rLoc := Loc.waitSib, fixing := true }
  | rDirectRecoverOk (s : Sys) (n : Int) (h1 : s.rLoc = Loc.busy)
      (h2 : s.fixing = false) (h3 : s.critical ≠ 2) (h4 : s.fdR ≠ -1) (h5 : 0 ≤ n) :
      Step s { s with rLoc := Loc.entry, fdR := n, fdW := n,
                      critical := s.critical - 1 }
  | rDirectRecoverFail (s : Sys) (h1 : s.rLoc = Loc.busy) (h2 : s.fixing = false)
      (h3 : s.critical ≠ 2) :
      Step s (rdDirectRecoverFail s)
  | rWokenRecoverOk (s : Sys) (n : Int) (h1 : s.rLoc = Loc.wokenSib)
      (h2 : s.fdR ≠ -1) (h3 : 0 ≤ n) :
      Step s { s with rLoc := Loc.entry, fdR := n, fdW := n, fixing := false,
                      wLoc := if s.fixing then wakeFix s.wLoc else s.wLoc,
                      critical := s.critical - 1 }
  | rWokenRecoverFail (s : Sys) (h1 : s.rLoc = Loc.wokenSib) :
      Step s (rdWokenRecoverFail s)
  | rAfterFix (s : Sys) (h1 : s.rLoc = Loc.afterFix) :
      Step s { s with rLoc := Loc.entry, critical := s.critical - 1 }
  | wEnterBusy (s : Sys) (h1 : s.wLoc = Loc.entry) (h2 : s.fdW ≠ -1) :
      Step s { s with wLoc := Loc.busy, critical := s.critical + 1 }
  | wEnterDead (s : Sys) (h1 : s.wLoc = Loc.entry) (h2 : s.fdW = -1) :
      Step s { s with wLoc := Loc.dead }
  | wQueueEnd (s : Sys) (h1 : s.wLoc = Loc.entry) :
      Step s { s with wLoc := Loc.dead }
  | wIoOk (s : Sys) (h1 : s.wLoc = Loc.busy) :
      Step s { s with wLoc := Loc.entry, critical := s.critical - 1,
                      rLoc := if s.fixing then wake s.rLoc else s.rLoc }
  | wIoFailFixing (s : Sys) (h1 : s.wLoc = Loc.busy) (h2 : s.fixing = true) :
      Step s { s with wLoc := Loc.waitFix, rLoc := wake s.rLoc }
  | wIoFailDefer (s : Sys) (h1 : s.wLoc = Loc.busy) (h2 : s.fixing = false)
      (h3 : s.critical = 2) :
      Step s { s with wLoc := Loc.waitSib, fixing := true }
  | wDirectRecoverOk (s : Sys) (n : Int) (h1 : s.wLoc = Loc.busy)
      (h2 : s.fixing = false) (h3 : s.critical ≠ 2) (h4 : 0 ≤ n) :
      Step s { s with wLoc := Loc.entry, fdW := n, fdR := n,
                      critical := s.critical - 1 }
  | wDirectRecoverFail (s : Sys) (h1 : s.wLoc = Loc.busy) (h2 : s.fixing = false)
      (h3 : s.critical ≠ 2) :
      Step s (wrDirectRecoverFail s)
  | wWokenRecoverOk (s : Sys) (n : Int) (h1 : s.wLoc = Loc.wokenSib) (h2 : 0 ≤ n) :
      Step s { s with wLoc := Loc.entry, fdW := n, fdR := n, fixing := false,
                      rLoc := if s.fixing then wakeFix s.rLoc else s.rLoc,
                      critical := s.critical - 1 }
  | wWokenRecoverFail (s : Sys) (h1 : s.wLoc = Loc.wokenSib) :
      Step s (wrWokenRecoverFail s)
  | wAfterFix (s : Sys) (h1 : s.wLoc = Loc.afterFix) :
      Step s { s with wLoc := Loc.entry, critical := s.critical - 1 }

/-- Initial state of a freshly connected persistent bidirectional pair:
both threads at their loop tops, both `if_tcp` records holding the same
descriptor, `critical = 0`, `fixing` clear (tcp.c:1043-1045). -/
def initSys (fd0 : Int) : Sys :=
  ⟨Loc.entry, Loc.entry, fd0, fd0, 0, false⟩

/-- A location that holds no in-flight I/O and no pending recovery: the
thread is at its loop top, dead, or parked as a non-fixer. -/
def Quiet (l : Loc) : Prop :=
  l = Loc.entry ∨ l = Loc.dead ∨ l = Loc.waitFix ∨ l = Loc.afterFix

/-- The terminal configurations in which `fd == -1` is in fact sticky: the
reader's descriptor is -1 and the writer either has already exited, or its
descriptor is -1 as well and it is not inside an I/O or pending-recovery
step.  (A writer still inside `writev` when the descriptors are cleared may
later run `reconnect` and overwrite the -1: see the counterexample.) -/
def Sticky (s : Sys) : Prop :=
  s.fdR = -1 ∧ (s.wLoc = Loc.dead ∨ (s.fdW = -1 ∧ Quiet s.wLoc))

/-! ## Theorems -/

/-- C2 (counterexample): the claim states that whenever the non-blocking
read of `reread` yields no data, `do_connect` is called.  On the concrete
environment where the read returns -1 with errno EAGAIN, the read yields no
data, yet `reread` returns 0 without calling `do_connect` (tcp.c:290-292). -/
theorem c2_counterexample :
    ((-1 : Int) ≤ 0) ∧
    (reread ⟨true, true, -1, 11, 0, true⟩).calledConnect = false ∧
    (reread ⟨true, true, -1, 11, 0, true⟩).result = 0 := by decide

/-- C2 (amended): `reread` puts the socket into non-blocking mode and reads
once more: a read yielding data returns that data without calling
`do_connect`; a read yielding no data calls `do_connect` unless it failed
with errno EWOULDBLOCK or EAGAIN, in which case `reread` returns 0 without
reconnecting; and on every non-error exit the original blocking mode has
been restored. -/
theorem c2_amended :
    (∀ e : RereadEnv, 0 < e.readRes → (reread e).calledConnect = false) ∧
    (∀ e : RereadEnv, 0 < e.readRes → e.getflOk = true → e.setflNbOk = true →
        e.setflRestoreOk = true → (reread e).result = e.readRes) ∧
    (∀ e : RereadEnv, e.getflOk = true → e.setflNbOk = true → e.readRes ≤ 0 →
        (e.readRes = 0 ∨ (e.readErrno ≠ EWOULDBLOCK ∧ e.readErrno ≠ EAGAIN)) →
        (reread e).calledConnect = true) ∧
    (∀ e : RereadEnv, e.getflOk = true → e.setflNbOk = true → e.readRes < 0 →
        e.readErrno = EAGAIN →
        (reread e).calledConnect = false ∧
        (e.setflRestoreOk = true → (reread e).result = 0)) ∧
    (∀ e : RereadEnv, 0 ≤ (reread e).result → (reread e).restoredFlags = true) := by
  refine ⟨?_, ?_, ?_, ?_, ?_⟩
  · intro e h
    simp only [reread]
    split_ifs <;> simp_all <;> omega
  · intro e h hg hs hr
    simp only [reread]
    split_ifs <;> simp_all <;> omega
  · intro e hg hs hle hcase
    simp only [reread]
    rcases hcase with h0 | ⟨h1, h2⟩
    · split_ifs <;> simp_all
    · split_ifs <;> simp_all [EWOULDBLOCK, EAGAIN]
  · intro e hg hs hlt herr
    simp only [reread]
    split_ifs <;> simp_all [EWOULDBLOCK, EAGAIN] <;> omega
  · intro e h
    simp only [reread] at h ⊢
    split_ifs at h ⊢ <;> simp_all

/-- C2 (witness): the amended theorem applied to a concrete environment in
which the read fails with errno EAGAIN. -/
theorem c2_amended_witness :
    (reread ⟨true, true, -1, 11, 1, true⟩).calledConnect = false ∧
    (reread ⟨true, true, -1, 11, 1, true⟩).result = 0 := by
  have h := c2_amended.2.2.2.1 ⟨true, true, -1, 11, 1, true⟩
    (by decide) (by decide) (by decide) (by decide)
  exact ⟨h.1, h.2 (by decide)⟩

/-- C3: `reconnect` (tcp.c:230-255) sleeps `retry` seconds before the
reconnection attempt for every failure errno except EAGAIN, which retries
with no pre-sleep; and when `do_connect` succeeds it flushes the interface
queue before returning 0, while a failed `do_connect` returns -1 without
touching the queue. -/
theorem c3_reconnect_behaviour :
    (∀ (err : Nat) (env : ReconnectEnv), err ≠ EAGAIN →
        (reconnect err env).slept = true) ∧
    (∀ env : ReconnectEnv, (reconnect EAGAIN env).slept = false) ∧
    (∀ err : Nat, (reconnect err ⟨true⟩).flushed = true ∧
        (reconnect err ⟨true⟩).ret = 0) ∧
    (∀ err : Nat, (reconnect err ⟨false⟩).flushed = false ∧
        (reconnect err ⟨false⟩).ret = -1) := by
  refine ⟨?_, ?_, ?_, ?_⟩
  · intro err env h
    rcases env with ⟨_ | _⟩ <;> simp [reconnect, h]
  · intro env
    rcases env with ⟨_ | _⟩ <;> simp [reconnect]
  · intro err; exact ⟨rfl, rfl⟩
  · intro err; exact ⟨rfl, rfl⟩

/-- C3 (witness): a failed write with errno EPIPE sleeps before the retry;
a successful reconnection flushes the queue. -/
theorem c3_witness :
    (reconnect EPIPE ⟨true⟩).slept = true ∧
    (reconnect EPIPE ⟨true⟩).flushed = true :=
  ⟨c3_reconnect_behaviour.1 EPIPE ⟨true⟩ (by decide),
   (c3_reconnect_behaviour.2.2.1 EPIPE).1⟩

/-- C4: the resolver loop of `do_connect` (tcp.c:173-183) retries (with a
`retry`-second sleep per attempt) exactly on the transient errors
EAI_NONAME, EAI_SERVICE, EAI_AGAIN and EAI_FAIL, and returns failure
immediately, without sleeping or retrying, on any other getaddrinfo
error. -/
theorem c4_resolver_classification :
    (∀ e : Int, gaiFatal e = false ↔
        (e = EAI_NONAME ∨ e = EAI_SERVICE ∨ e = EAI_AGAIN ∨ e = EAI_FAIL)) ∧
    (∀ (e : Int) (rest : List Int), e ≠ 0 → gaiFatal e = true →
        do_connect_resolve (e :: rest) = ResolveOut.failed 0) ∧
    (∀ errs : List Int, (∀ e ∈ errs, gaiFatal e = false) →
        do_connect_resolve errs = ResolveOut.exhausted errs.length) := by
  refine ⟨?_, ?_, ?_⟩
  · intro e
    simp [gaiFatal, EAI_NONAME, EAI_SERVICE, EAI_AGAIN, EAI_FAIL]
    tauto
  · intro e rest h0 hf
    simp [do_connect_resolve, h0, hf]
  · intro errs h
    induction errs with
    | nil => simp [do_connect_resolve]
    | cons e rest ih =>
        have he : gaiFatal e = false := h e (by simp)
        have h0 : e ≠ 0 := by
          intro h0
          subst h0
          exact absurd he (by decide)
        have ihr := ih (fun x hx => h x (by simp [hx]))
        simp [do_connect_resolve, h0, he, ihr]

/-- C4 (witness): EAI_MEMORY (out of memory) is fatal and fails at once;
a script of transient errors is retried to exhaustion, one sleep each. -/
theorem c4_witness :
    do_connect_resolve [EAI_MEMORY] = ResolveOut.failed 0 ∧
    do_connect_resolve [EAI_NONAME, EAI_AGAIN] = ResolveOut.exhausted 2 :=
  ⟨c4_resolver_classification.2.1 EAI_MEMORY [] (by decide) (by decide),
   c4_resolver_classification.2.2 [EAI_NONAME, EAI_AGAIN] (by decide)⟩

/-- C5 (code bug, evaluation): with keepalives on, a send timeout
configured (tv_sec = 30) and every setsockopt call succeeding,
`establish_keepalive` returns -1 and logs nothing, because the `err=-1;`
at tcp.c:148 stands outside the `if` of tcp.c:143-147; the claim (and the
intent documented in the spec) is a return of 0 when no syscall failed.
Without a send timeout the same configuration returns 0, and a failing
SO_KEEPALIVE setsockopt is the immediate hard failure. -/
theorem c5_send_timeout_flag :
    establish_keepalive ⟨true, 10, 5, 3, 30⟩ ⟨true, true, true, true, true, true⟩ =
      ⟨-1, false⟩ ∧
    establish_keepalive ⟨true, 10, 5, 3, 0⟩ ⟨true, true, true, true, true, true⟩ =
      ⟨0, false⟩ ∧
    establish_keepalive ⟨true, 10, 5, 3, 30⟩ ⟨false, true, true, true, true, true⟩ =
      ⟨-1, false⟩ := by decide

/-- Helper: the octal branch of the escape switch.  Three octal digits
after a backslash decode to one byte worth the built value reduced mod 256
(the `(unsigned char) tval` store of tcp.c:706), consuming all three; the
built value is at most 511, so the `tval < 512` test of tcp.c:705 passes. -/
theorem decodeOne_octal {d e2 f2 : Nat} (rest : List Nat) (hd : octDigit d = true)
    (he : octDigit e2 = true) (hf : octDigit f2 = true) :
    decodeOne 92 (d :: e2 :: f2 :: rest) =
      some (((d - 48) * 64 + (e2 - 48) * 8 + (f2 - 48)) % 256, 3) := by
  have hdb : 48 ≤ d ∧ d ≤ 55 := by simpa [octDigit] using hd
  have hlt : (d - 48) * 64 + (e2 - 48) * 8 + (f2 - 48) < 512 := by
    have heb : 48 ≤ e2 ∧ e2 ≤ 55 := by simpa [octDigit] using he
    have hfb : 48 ≤ f2 ∧ f2 ≤ 55 := by simpa [octDigit] using hf
    omega
  have hne : d ≠ 97 ∧ d ≠ 98 ∧ d ≠ 102 ∧ d ≠ 110 ∧ d ≠ 114 ∧ d ≠ 116 ∧
      d ≠ 118 ∧ d ≠ 39 ∧ d ≠ 34 ∧ d ≠ 63 ∧ d ≠ 120 ∧ d ≠ 0 := by omega
  obtain ⟨h1, h2, h3, h4, h5, h6, h7, h8, h9, h10, h11, h12⟩ := hne
  simp [decodeOne, h1, h2, h3, h4, h5, h6, h7, h8, h9, h10, h11, h12, hd, he, hf, hlt]

/-- Helper: the default branch with a non-octal character.  A backslash
followed by a character that has no dedicated case and is not an octal
digit emits that character itself (tcp.c:698-700). -/
theorem decodeOne_literal {d : Nat} (rest : List Nat) (hd : octDigit d = false)
    (hs : simpleEscape d = false) :
    decodeOne 92 (d :: rest) = some (d, 1) := by
  have hne : d ≠ 97 ∧ d ≠ 98 ∧ d ≠ 102 ∧ d ≠ 110 ∧ d ≠ 114 ∧ d ≠ 116 ∧
      d ≠ 118 ∧ d ≠ 39 ∧ d ≠ 34 ∧ d ≠ 63 ∧ d ≠ 120 ∧ d ≠ 0 := by
    simpa [simpleEscape, and_assoc] using hs
  obtain ⟨h1, h2, h3, h4, h5, h6, h7, h8, h9, h10, h11, h12⟩ := hne
  simp [decodeOne, h1, h2, h3, h4, h5, h6, h7, h8, h9, h10, h11, h12, hd]

/-- Unfolding equation of `parseLoop` on the empty input: the loop of
tcp.c:639 exits at the end of the string and tcp.c:715-719 rejects exactly
when the count reached the cap. -/
theorem parseLoop_nil (m count : Nat) :
    parseLoop m count [] =
      if count = m then PreResult.tooLong else PreResult.ok [] := by
  rw [parseLoop]

/-- Unfolding equation of `parseLoop` on a non-empty input: one iteration
of the loop of tcp.c:639-714, or the too-long rejection when the count
reached the cap with input remaining. -/
theorem parseLoop_cons (m count c : Nat) (rest : List Nat) :
    parseLoop m count (c :: rest) =
      if count = m then PreResult.tooLong
      else
        match decodeOne c rest with
        | none => PreResult.invalid
        | some (b, k) => consByte b (parseLoop m (count + 1) (rest.drop k)) := by
  rw [parseLoop]

/-- C6 (counterexample): the claim states that the input backslash-400 is
rejected.  In the source the value of octal 400 is 256, which is below the
512 bound of tcp.c:705, so `parse_preamble` accepts the input and stores
`(unsigned char) 256 = 0`: the parse succeeds with the single byte 0.  The
byte list is the C string of backslash, '4', '0', '0'. -/
theorem c6_counterexample :
    parse_preamble 64 [92, 52, 48, 48] = PreResult.ok [0] := by
  simp [parse_preamble, parseLoop_cons, parseLoop_nil, decodeOne, octDigit,
    consByte, List.drop]

/-- C6 (amended): for every escape of a backslash and three octal digits,
the built value is below 512 (it is at most 511), so the range rejection of
tcp.c:705-708 never fires; the escape decodes to the byte worth the value
reduced mod 256 (the `(unsigned char)` truncation of tcp.c:706, so values
256..511 wrap around rather than being rejected); a single backslash-D
where D is neither octal nor a dedicated escape character is a literal of
the following character; and the input backslash-400 is accepted as the
single byte 0 under every cap of at least 2. -/
theorem c6_amended :
    (∀ d e2 f2 : Nat, octDigit d = true → octDigit e2 = true → octDigit f2 = true →
        (d - 48) * 64 + (e2 - 48) * 8 + (f2 - 48) < 512) ∧
    (∀ (m count : Nat) (d e2 f2 : Nat) (rest : List Nat), octDigit d = true →
        octDigit e2 = true → octDigit f2 = true → count ≠ m →
        parseLoop m count (92 :: d :: e2 :: f2 :: rest) =
          consByte (((d - 48) * 64 + (e2 - 48) * 8 + (f2 - 48)) % 256)
            (parseLoop m (count + 1) rest)) ∧
    (∀ (m count : Nat) (d : Nat) (rest : List Nat), octDigit d = false →
        simpleEscape d = false → count ≠ m →
        parseLoop m count (92 :: d :: rest) =
          consByte d (parseLoop m (count + 1) rest)) ∧
    (∀ m : Nat, 2 ≤ m → parse_preamble m [92, 52, 48, 48] = PreResult.ok [0]) := by
  refine ⟨?_, ?_, ?_, ?_⟩
  · intro d e2 f2 hd he hf
    have hdb : 48 ≤ d ∧ d ≤ 55 := by simpa [octDigit] using hd
    have heb : 48 ≤ e2 ∧ e2 ≤ 55 := by simpa [octDigit] using he
    have hfb : 48 ≤ f2 ∧ f2 ≤ 55 := by simpa [octDigit] using hf
    omega
  · intro m count d e2 f2 rest hd he hf hcount
    rw [parseLoop_cons, if_neg hcount, decodeOne_octal rest hd he hf]
    rfl
  · intro m count d rest hd hs hcount
    rw [parseLoop_cons, if_neg hcount, decodeOne_literal rest hd hs]
    rfl
  · intro m hm
    have h0 : ¬ (0 = m) := by omega
    have h1 : ¬ (1 = m) := by omega
    simp [parse_preamble, parseLoop_cons, parseLoop_nil, decodeOne, octDigit,
      consByte, List.drop, h0, h1]

/-- C6 (witness): the amended theorem applied to the concrete escape of
backslash, '1', '0', '1' (octal 101, byte 65) at cap 64, to the literal
case backslash-'8', and to backslash-400 at cap 2. -/
theorem c6_amended_witness :
    parseLoop 64 0 [92, 49, 48, 49] = consByte 65 (parseLoop 64 1 []) ∧
    parseLoop 64 0 [92, 56] = consByte 56 (parseLoop 64 1 []) ∧
    parse_preamble 2 [92, 52, 48, 48] = PreResult.ok [0] := by
  refine ⟨?_, ?_, c6_amended.2.2.2 2 (by decide)⟩
  · have h := c6_amended.2.1 64 0 49 48 49 [] (by decide) (by decide) (by decide)
      (by decide)
    simpa using h
  · exact c6_amended.2.2.1 64 0 56 [] (by decide) (by decide) (by decide)

/-- Helper: inverting `consByte` on a successful result. -/
theorem consByte_ok {b : Nat} {r : PreResult} {bs : List Nat}
    (h : consByte b r = PreResult.ok bs) :
    ∃ bs2, r = PreResult.ok bs2 ∧ bs = b :: bs2 := by
  cases r with
  | ok l =>
      refine ⟨l, rfl, ?_⟩
      cases h
      rfl
  | tooLong => cases h
  | invalid => cases h

/-- Helper: a successful parse at cap `m`, started at output count
`count ≤ m`, never lets the count reach the cap: the loop of tcp.c:639
stops at `count == MAXPREAMBLE` and tcp.c:715-719 then rejects, so success
bounds the produced length strictly below the cap. -/
theorem parseLoop_ok_length :
    ∀ (m count : Nat) (s : List Nat), count ≤ m → ∀ bs : List Nat,
      parseLoop m count s = PreResult.ok bs → count + bs.length < m := by
  intro m
  refine parseLoop.induct m
    (fun count s => count ≤ m → ∀ bs : List Nat,
      parseLoop m count s = PreResult.ok bs → count + bs.length < m)
    ?_ ?_ ?_ ?_ ?_
  · intro _ bs h
    rw [parseLoop_nil, if_pos rfl] at h
    cases h
  · intro count hcount hcm bs h
    rw [parseLoop_nil, if_neg hcount] at h
    cases h
    simp only [List.length_nil, Nat.add_zero]
    omega
  · intro d tail _ bs h
    rw [parseLoop_cons, if_pos rfl] at h
    cases h
  · intro count d tail hcount hdec _ bs h
    rw [parseLoop_cons, if_neg hcount, hdec] at h
    cases h
  · intro count d tail hcount b k hdec ih hcm bs h
    rw [parseLoop_cons, if_neg hcount, hdec] at h
    have hcb : consByte b (parseLoop m (count + 1) (List.drop k tail)) =
        PreResult.ok bs := h
    obtain ⟨bs2, hrec, rfl⟩ := consByte_ok hcb
    have := ih (by omega) bs2 hrec
    simp only [List.length_cons]
    omega

/-- Helper: lowering the cap to at most the produced length turns a
successful parse into the too-long rejection of tcp.c:715-719. -/
theorem parseLoop_tooLong_of_cap :
    ∀ (m count : Nat) (s : List Nat) (bs : List Nat),
      parseLoop m count s = PreResult.ok bs → ∀ m1 : Nat, count ≤ m1 →
      m1 ≤ count + bs.length → parseLoop m1 count s = PreResult.tooLong := by
  intro m
  refine parseLoop.induct m
    (fun count s => ∀ bs : List Nat,
      parseLoop m count s = PreResult.ok bs → ∀ m1 : Nat, count ≤ m1 →
      m1 ≤ count + bs.length → parseLoop m1 count s = PreResult.tooLong)
    ?_ ?_ ?_ ?_ ?_
  · intro bs h m1 h1 h2
    rw [parseLoop_nil, if_pos rfl] at h
    cases h
  · intro count hcount bs h m1 h1 h2
    rw [parseLoop_nil, if_neg hcount] at h
    cases h
    simp only [List.length_nil, Nat.add_zero] at h2
    rw [parseLoop_nil, if_pos (show count = m1 by omega)]
  · intro d tail bs h m1 h1 h2
    rw [parseLoop_cons, if_pos rfl] at h
    cases h
  · intro count d tail hcount hdec bs h m1 h1 h2
    rw [parseLoop_cons, if_neg hcount, hdec] at h
    cases h
  · intro count d tail hcount b k hdec ih bs h m1 h1 h2
    rw [parseLoop_cons, if_neg hcount, hdec] at h
    have hcb : consByte b (parseLoop m (count + 1) (List.drop k tail)) =
        PreResult.ok bs := h
    obtain ⟨bs2, hrec, rfl⟩ := consByte_ok hcb
    by_cases hc1 : count = m1
    · rw [parseLoop_cons, if_pos hc1]
    · simp only [List.length_cons] at h2
      have hrec2 := ih bs2 hrec m1 (by omega) (by omega)
      rw [parseLoop_cons, if_neg hc1, hdec]
      show consByte b (parseLoop m1 (count + 1) (List.drop k tail)) =
        PreResult.tooLong
      rw [hrec2]
      rfl

/-- Helper: raising the cap above the produced length preserves a
successful parse unchanged. -/
theorem parseLoop_ok_of_cap :
    ∀ (m count : Nat) (s : List Nat) (bs : List Nat),
      parseLoop m count s = PreResult.ok bs → ∀ m1 : Nat,
      count + bs.length < m1 → parseLoop m1 count s = PreResult.ok bs := by
  intro m
  refine parseLoop.induct m
    (fun count s => ∀ bs : List Nat,
      parseLoop m count s = PreResult.ok bs → ∀ m1 : Nat,
      count + bs.length < m1 → parseLoop m1 count s = PreResult.ok bs)
    ?_ ?_ ?_ ?_ ?_
  · intro bs h m1 h1
    rw [parseLoop_nil, if_pos rfl] at h
    cases h
  · intro count hcount bs h m1 h1
    rw [parseLoop_nil, if_neg hcount] at h
    cases h
    simp only [List.length_nil, Nat.add_zero] at h1
    rw [parseLoop_nil, if_neg (show ¬ count = m1 by omega)]
  · intro d tail bs h m1 h1
    rw [parseLoop_cons, if_pos rfl] at h
    cases h
  · intro count d tail hcount hdec bs h m1 h1
    rw [parseLoop_cons, if_neg hcount, hdec] at h
    cases h
  · intro count d tail hcount b k hdec ih bs h m1 h1
    rw [parseLoop_cons, if_neg hcount, hdec] at h
    have hcb : consByte b (parseLoop m (count + 1) (List.drop k tail)) =
        PreResult.ok bs := h
    obtain ⟨bs2, hrec, rfl⟩ := consByte_ok hcb
    simp only [List.length_cons] at h1
    have hrec2 := ih bs2 hrec m1 (by omega)
    rw [parseLoop_cons, if_neg (show ¬ count = m1 by omega), hdec]
    show consByte b (parseLoop m1 (count + 1) (List.drop k tail)) =
      PreResult.ok (b :: bs2)
    rw [hrec2]
    rfl

/-- C7: `parse_preamble` rejects as too long every input whose decoded
length reaches the cap MAXPREAMBLE (here the parameter `m`): a successful
parse always produces strictly fewer than `m` bytes; an input decoding to
exactly `m` bytes (as witnessed by a parse under the relaxed cap `m + 1`)
is rejected as too long at cap `m`; and an otherwise-legal input decoding
to fewer than `m` bytes (in particular to `m - 1` bytes) is accepted at cap
`m` with the same byte sequence. -/
theorem c7_preamble_cap :
    (∀ (m : Nat) (s bs : List Nat), parse_preamble m s = PreResult.ok bs →
        bs.length < m) ∧
    (∀ (m : Nat) (s bs : List Nat), parse_preamble (m + 1) s = PreResult.ok bs →
        m ≤ bs.length → parse_preamble m s = PreResult.tooLong) ∧
    (∀ (m : Nat) (s bs : List Nat), parse_preamble (m + 1) s = PreResult.ok bs →
        bs.length < m → parse_preamble m s = PreResult.ok bs) := by
  refine ⟨?_, ?_, ?_⟩
  · intro m s bs h
    have := parseLoop_ok_length m 0 s (Nat.zero_le m) bs h
    omega
  · intro m s bs h hlen
    exact parseLoop_tooLong_of_cap (m + 1) 0 s bs h m (Nat.zero_le m) (by omega)
  · intro m s bs h hlen
    exact parseLoop_ok_of_cap (m + 1) 0 s bs h m (by omega)

/-- C7 (witness): three plain bytes decode to three bytes, rejected at cap
3 and accepted at cap 4. -/
theorem c7_witness :
    parse_preamble 3 [65, 65, 65] = PreResult.tooLong ∧
    parse_preamble 4 [65, 65, 65] = PreResult.ok [65, 65, 65] := by
  have hok : parse_preamble 4 [65, 65, 65] = PreResult.ok [65, 65, 65] := by
    simp [parse_preamble, parseLoop_cons, parseLoop_nil, decodeOne, consByte,
      List.drop]
  exact ⟨c7_preamble_cap.2.1 3 [65, 65, 65] [65, 65, 65] hok (by decide), hok⟩

/-- C8: after `ifdup_tcp` duplicates a persistent interface, both siblings
hold the same `shared` pointer and `donewith` is reset to 0 (tcp.c:29-32);
the first sibling to run `cleanup_tcp` increments `donewith` and returns
without freeing anything (tcp.c:50-53); the second frees the port and host
strings, the preamble string and record, destroys the mutex and condition
variable and frees the shared record (tcp.c:54-64), so each shared resource
is released exactly once. -/
theorem c8_cleanup_exactly_once (a : Nat) (h : Nat → Option SharedRec)
    (i : IfTcp) (r : SharedRec) (hi : i.shared = some a) (ha : h a = some r)
    (hhost : r.hasHost = true) (hport : r.hasPort = true)
    (hpre : r.hasPreamble = true) :
    ((ifdup_tcp h i).1.shared = i.shared) ∧
    ((ifdup_tcp h i).2 a = some { r with donewith := 0 }) ∧
    ((cleanup_tcp (ifdup_tcp h i).2 i).2 = []) ∧
    ((cleanup_tcp (ifdup_tcp h i).2 i).1 a = some { r with donewith := 1 }) ∧
    ((cleanup_tcp (cleanup_tcp (ifdup_tcp h i).2 i).1 (ifdup_tcp h i).1).2 =
      [Res.port, Res.host, Res.preambleStr, Res.preambleRec, Res.mutexDestroy,
       Res.condDestroy, Res.sharedFree, Res.fdClose]) ∧
    ((cleanup_tcp (cleanup_tcp (ifdup_tcp h i).2 i).1 (ifdup_tcp h i).1).1 a =
      none) := by
  obtain ⟨fd0, sh0⟩ := i
  simp only at hi
  subst hi
  refine ⟨by simp [ifdup_tcp], ?_, ?_, ?_, ?_, ?_⟩ <;>
    simp [ifdup_tcp, cleanup_tcp, ha, hhost, hport, hpre]

/-- C8 (witness): the duplication and double cleanup evaluated on a
concrete one-cell heap. -/
theorem c8_witness :
    ((cleanup_tcp
        (cleanup_tcp
          (ifdup_tcp (fun x => if x = 0 then some ⟨1, true, true, true⟩ else none)
            ⟨4, some 0⟩).2 ⟨4, some 0⟩).1
        (ifdup_tcp (fun x => if x = 0 then some ⟨1, true, true, true⟩ else none)
          ⟨4, some 0⟩).1).2 =
      [Res.port, Res.host, Res.preambleStr, Res.preambleRec, Res.mutexDestroy,
       Res.condDestroy, Res.sharedFree, Res.fdClose]) ∧
    ((cleanup_tcp
        (ifdup_tcp (fun x => if x = 0 then some ⟨1, true, true, true⟩ else none)
          ⟨4, some 0⟩).2 ⟨4, some 0⟩).2 = []) := by
  have h := c8_cleanup_exactly_once 0
    (fun x => if x = 0 then some ⟨1, true, true, true⟩ else none)
    ⟨4, some 0⟩ ⟨1, true, true, true⟩ rfl (by decide) rfl rfl rfl
  exact ⟨h.2.2.2.2.1, h.2.2.1⟩

/-- C9 (implicit): on a persistent interface `read_tcp` never returns 0:
whenever the scripted loop returns, the value is either a positive byte
count (from the blocking read of tcp.c:347 or from `reread`) or the -1 of
the terminal `fd == -1` check at critical entry (tcp.c:332-340); a plain
zero return (EOF propagation, tcp.c:348-356) is possible only on a
non-persistent interface, as the second conjunct evaluates. -/
theorem c9_persistent_read_nonzero :
    (∀ (iters : List RdIter) (acc : Nat) (n : Int),
        (read_tcp_model true iters acc).1 = some n → 0 < n ∨ n = -1) ∧
    (read_tcp_model false [⟨false, 0, false, 0⟩] 0).1 = some 0 := by
  constructor
  · intro iters
    induction iters with
    | nil =>
        intro acc n h
        simp [read_tcp_model] at h
    | cons it rest ih =>
        intro acc n h
        cases hfd : it.fdNeg with
        | true =>
            simp [read_tcp_model, hfd] at h
            right
            omega
        | false =>
            by_cases hrd : it.readRes ≤ 0
            · by_cases hfx : it.fixing = true
              · simp only [read_tcp_model, hfd, hrd, hfx, Bool.false_eq_true,
                  if_false, if_true] at h
                exact ih _ n h
              · by_cases hrr : it.rereadRes ≤ 0
                · simp only [read_tcp_model, hfd, hrd, hrr, Bool.false_eq_true,
                    if_false, if_true, hfx] at h
                  exact ih _ n h
                · simp [read_tcp_model, hfd, hrd, hrr, hfx] at h
                  left
                  omega
            · simp [read_tcp_model, hfd, hrd] at h
              left
              omega
  · rfl

/-- C9 (witness): the theorem applied to a persistent run that observes the
terminal descriptor at entry and returns -1. -/
theorem c9_witness :
    (read_tcp_model true [⟨true, 0, false, 0⟩] 0).1 = some (-1) ∧
    ((0 : Int) < -1 ∨ (-1 : Int) = -1) :=
  ⟨rfl, c9_persistent_read_nonzero.1 [⟨true, 0, false, 0⟩] 0 (-1) rfl⟩

/-- C10 (implicit): with persistence off, neither `read_tcp` nor
`write_tcp` ever touches the shared record: every access block (mutex,
condition variable, `critical`, `fixing`) sits behind a
`flag_test(ifa, F_PERSIST)` guard (tcp.c:330, 355, 381, 434, 450, 478),
so the access counter stays at its initial value on every script; and on a
non-persistent interface an EOF or read error returns immediately. -/
theorem c10_nonpersistent_no_shared_access :
    (∀ (iters : List RdIter) (acc : Nat), (read_tcp_model false iters acc).2 = acc) ∧
    (∀ (tagflags : Bool) (iters : List WrIter) (acc : Nat),
        write_tcp_model false tagflags iters acc = acc) ∧
    (∀ (it : RdIter) (rest : List RdIter) (acc : Nat), it.readRes ≤ 0 →
        (read_tcp_model false (it :: rest) acc).1 = some it.readRes) := by
  refine ⟨?_, ?_, ?_⟩
  · intro iters acc
    cases iters with
    | nil => rfl
    | cons it rest => simp [read_tcp_model]
  · intro tf iters acc
    induction iters generalizing tf acc with
    | nil => rfl
    | cons it rest ih =>
        by_cases hmsg : it.hasMsg = true
        · by_cases hw : it.writevFail = true
          · simp [write_tcp_model, hmsg, hw]
          · simp [write_tcp_model, hmsg, hw, ih]
        · simp [write_tcp_model, hmsg]
  · intro it rest acc hle
    simp [read_tcp_model, hle]

/-- C10 (witness): the theorem applied to a non-persistent EOF read with a
nonzero starting counter value. -/
theorem c10_witness :
    (read_tcp_model false [⟨false, 0, false, 0⟩] 7).1 = some 0 ∧
    (read_tcp_model false [⟨false, 0, false, 0⟩] 7).2 = 7 :=
  ⟨c10_nonpersistent_no_shared_access.2.2 ⟨false, 0, false, 0⟩ [] 7 (by decide),
   c10_nonpersistent_no_shared_access.1 [⟨false, 0, false, 0⟩] 7⟩

/-- Helper: a signal to a fixer leaves a quiet location alone. -/
theorem quiet_wake {l : Loc} (h : Quiet l) : wake l = l := by
  rcases h with h | h | h | h <;> subst h <;> rfl

/-- Helper: the fixer's closing signal maps quiet locations to quiet
locations (parked non-fixers move on to decrement `critical`). -/
theorem quiet_wakeFix {l : Loc} (h : Quiet l) : Quiet (wakeFix l) := by
  rcases h with h | h | h | h <;> subst h <;> simp [wakeFix, Quiet]

/-- Helper: from a terminal configuration (`Sticky`), every step of the
paired protocol leads to a terminal configuration again; in particular the
reader's descriptor stays -1. -/
theorem sticky_preserved {s t : Sys} (hs : Sticky s) (hstep : Step s t) :
    Sticky t := by
  obtain ⟨hfd, hw⟩ := hs
  cases hstep with
  | rEnterBusy h1 h2 => exact absurd hfd h2
  | rEnterDead h1 h2 => exact ⟨hfd, hw⟩
  | rIoOk h1 =>
      refine ⟨hfd, ?_⟩
      rcases hw with hdead | ⟨hfw, hq⟩
      · left
        show (if s.fixing then wake s.wLoc else s.wLoc) = Loc.dead
        simp [hdead, wake, ite_self]
      · right
        refine ⟨hfw, ?_⟩
        show Quiet (if s.fixing then wake s.wLoc else s.wLoc)
        simpa [quiet_wake hq, ite_self] using hq
  | rIoFailFixing h1 h2 =>
      refine ⟨hfd, ?_⟩
      rcases hw with hdead | ⟨hfw, hq⟩
      · left
        show wake s.wLoc = Loc.dead
        simp [hdead, wake]
      · right
        exact ⟨hfw, by simpa [quiet_wake hq] using hq⟩
  | rIoFailDefer h1 h2 h3 => exact ⟨hfd, hw⟩
  | rDirectRecoverOk n h1 h2 h3 h4 h5 => exact absurd hfd h4
  | rDirectRecoverFail h1 h2 h3 =>
      refine ⟨rfl, ?_⟩
      rcases hw with hdead | ⟨hfw, hq⟩
      · exact Or.inl hdead
      · exact Or.inr ⟨rfl, hq⟩
  | rWokenRecoverOk n h1 h2 h3 => exact absurd hfd h2
  | rWokenRecoverFail h1 =>
      refine ⟨rfl, ?_⟩
      rcases hw with hdead | ⟨hfw, hq⟩
      · left
        show (if s.fixing then wakeFix s.wLoc else s.wLoc) = Loc.dead
        simp [hdead, wakeFix, ite_self]
      · right
        refine ⟨rfl, ?_⟩
        show Quiet (if s.fixing then wakeFix s.wLoc else s.wLoc)
        cases hfix : s.fixing
        · simpa using hq
        · simpa using quiet_wakeFix hq
  | rAfterFix h1 => exact ⟨hfd, hw⟩
  | wEnterBusy h1 h2 =>
      rcases hw with hdead | ⟨hfw, hq⟩
      · rw [h1] at hdead
        cases hdead
      · exact absurd hfw h2
  | wEnterDead h1 h2 => exact ⟨hfd, Or.inl rfl⟩
  | wQueueEnd h1 => exact ⟨hfd, Or.inl rfl⟩
  | wIoOk h1 =>
      rcases hw with hdead | ⟨hfw, hq⟩
      · rw [h1] at hdead; cases hdead
      · rw [h1] at hq; simp [Quiet] at hq
  | wIoFailFixing h1 h2 =>
      rcases hw with hdead | ⟨hfw, hq⟩
      · rw [h1] at hdead; cases hdead
      · rw [h1] at hq; simp [Quiet] at hq
  | wIoFailDefer h1 h2 h3 =>
      rcases hw with hdead | ⟨hfw, hq⟩
      · rw [h1] at hdead; cases hdead
      · rw [h1] at hq; simp [Quiet] at hq
  | wDirectRecoverOk n h1 h2 h3 h4 =>
      rcases hw with hdead | ⟨hfw, hq⟩
      · rw [h1] at hdead; cases hdead
      · rw [h1] at hq; simp [Quiet] at hq
  | wDirectRecoverFail h1 h2 h3 =>
      rcases hw with hdead | ⟨hfw, hq⟩
      · rw [h1] at hdead; cases hdead
      · rw [h1] at hq; simp [Quiet] at hq
  | wWokenRecoverOk n h1 h2 =>
      rcases hw with hdead | ⟨hfw, hq⟩
      · rw [h1] at hdead; cases hdead
      · rw [h1] at hq; simp [Quiet] at hq
  | wWokenRecoverFail h1 =>
      rcases hw with hdead | ⟨hfw, hq⟩
      · rw [h1] at hdead; cases hdead
      · rw [h1] at hq; simp [Quiet] at hq
  | wAfterFix h1 =>
      rcases hw with hdead | ⟨hfw, hq⟩
      · rw [h1] at hdead; cases hdead
      · exact ⟨hfd, Or.inr ⟨hfw, Or.inl rfl⟩⟩

/-- Helper: a reader that observes `fd == -1` at its loop top never
proceeds to I/O or recovery: its next location is again the loop top or
the exit. -/
theorem entry_exit_reader {s t : Sys} (hstep : Step s t)
    (hloc : s.rLoc = Loc.entry) (hfd : s.fdR = -1) :
    t.rLoc = Loc.entry ∨ t.rLoc = Loc.dead := by
  cases hstep with
  | rEnterBusy h1 h2 => exact absurd hfd h2
  | rEnterDead h1 h2 => exact Or.inr rfl
  | rIoOk h1 => rw [hloc] at h1; cases h1
  | rIoFailFixing h1 h2 => rw [hloc] at h1; cases h1
  | rIoFailDefer h1 h2 h3 => rw [hloc] at h1; cases h1
  | rDirectRecoverOk n h1 h2 h3 h4 h5 => rw [hloc] at h1; cases h1
  | rDirectRecoverFail h1 h2 h3 => rw [hloc] at h1; cases h1
  | rWokenRecoverOk n h1 h2 h3 => rw [hloc] at h1; cases h1
  | rWokenRecoverFail h1 => rw [hloc] at h1; cases h1
  | rAfterFix h1 => rw [hloc] at h1; cases h1
  | wEnterBusy h1 h2 => exact Or.inl hloc
  | wEnterDead h1 h2 => exact Or.inl hloc
  | wQueueEnd h1 => exact Or.inl hloc
  | wIoOk h1 =>
      left
      show (if s.fixing then wake s.rLoc else s.rLoc) = Loc.entry
      simp [hloc, wake, ite_self]
  | wIoFailFixing h1 h2 =>
      left
      show wake s.rLoc = Loc.entry
      simp [hloc, wake]
  | wIoFailDefer h1 h2 h3 => exact Or.inl hloc
  | wDirectRecoverOk n h1 h2 h3 h4 => exact Or.inl hloc
  | wDirectRecoverFail h1 h2 h3 => exact Or.inl hloc
  | wWokenRecoverOk n h1 h2 =>
      left
      show (if s.fixing then wakeFix s.rLoc else s.rLoc) = Loc.entry
      simp [hloc, wakeFix, ite_self]
  | wWokenRecoverFail h1 =>
      left
      show (if s.fixing then wakeFix s.rLoc else s.rLoc) = Loc.entry
      simp [hloc, wakeFix, ite_self]
  | wAfterFix h1 => exact Or.inl hloc

/-- Helper: a writer that observes `fd == -1` at its loop top (or runs out
of queue) never proceeds to I/O or recovery. -/
theorem entry_exit_writer {s t : Sys} (hstep : Step s t)
    (hloc : s.wLoc = Loc.entry) (hfd : s.fdW = -1) :
    t.wLoc = Loc.entry ∨ t.wLoc = Loc.dead := by
  cases hstep with
  | wEnterBusy h1 h2 => exact absurd hfd h2
  | wEnterDead h1 h2 => exact Or.inr rfl
  | wQueueEnd h1 => exact Or.inr rfl
  | wIoOk h1 => rw [hloc] at h1; cases h1
  | wIoFailFixing h1 h2 => rw [hloc] at h1; cases h1
  | wIoFailDefer h1 h2 h3 => rw [hloc] at h1; cases h1
  | wDirectRecoverOk n h1 h2 h3 h4 => rw [hloc] at h1; cases h1
  | wDirectRecoverFail h1 h2 h3 => rw [hloc] at h1; cases h1
  | wWokenRecoverOk n h1 h2 => rw [hloc] at h1; cases h1
  | wWokenRecoverFail h1 => rw [hloc] at h1; cases h1
  | wAfterFix h1 => rw [hloc] at h1; cases h1
  | rEnterBusy h1 h2 => exact Or.inl hloc
  | rEnterDead h1 h2 => exact Or.inl hloc
  | rIoFailDefer h1 h2 h3 => exact Or.inl hloc
  | rDirectRecoverOk n h1 h2 h3 h4 h5 => exact Or.inl hloc
  | rAfterFix h1 => exact Or.inl hloc
  | rIoOk h1 =>
      left
      show (if s.fixing then wake s.wLoc else s.wLoc) = Loc.entry
      simp [hloc, wake, ite_self]
  | rIoFailFixing h1 h2 =>
      left
      show wake s.wLoc = Loc.entry
      simp [hloc, wake]
  | rDirectRecoverFail h1 h2 h3 => exact Or.inl hloc
  | rWokenRecoverOk n h1 h2 h3 =>
      left
      show (if s.fixing then wakeFix s.wLoc else s.wLoc) = Loc.entry
      simp [hloc, wakeFix, ite_self]
  | rWokenRecoverFail h1 =>
      left
      show (if s.fixing then wakeFix s.wLoc else s.wLoc) = Loc.entry
      simp [hloc, wakeFix, ite_self]

/-- C1 (counterexample): both halves of the claim fail on a reachable
trace of the protocol.  From a fresh pair on descriptor 3: the reader and
writer both enter their critical regions; the reader's read fails and,
seeing `critical == 2`, it becomes fixer (sets `fixing`, shuts the socket
down) and parks; the writer's in-flight writev succeeds, signals the
parked fixer, fetches the next message and re-enters the critical region
(the entry check of tcp.c:436 tests only `fd == -1`, not `fixing`); the
reader's recovery then fails terminally, setting both descriptors to -1 —
its closing signal is lost because the writer is inside writev, not
waiting.  The writer's writev now fails and, with `fixing` clear and
`critical == 1`, it runs `reconnect` directly, which can succeed: the
mirror store of tcp.c:205-208 overwrites the reader's descriptor -1 with
the fresh descriptor 5 — so a descriptor set to -1 is changed again,
refuting the claim's stickiness clause.  The writer then fails again and
its recovery fails terminally (tcp.c:464-470): it sets only its sibling's
descriptor to -1 and exits with its own descriptor still 5, refuting the
claim that the write path sets its own descriptor field to -1. -/
theorem c1_counterexample :
    Relation.ReflTransGen Step (initSys 3)
      ⟨Loc.entry, Loc.busy, -1, -1, 1, false⟩ ∧
    Step (⟨Loc.entry, Loc.busy, -1, -1, 1, false⟩ : Sys)
      ⟨Loc.entry, Loc.entry, 5, 5, 0, false⟩ ∧
    (⟨Loc.entry, Loc.busy, -1, -1, 1, false⟩ : Sys).fdR = -1 ∧
    (⟨Loc.entry, Loc.entry, 5, 5, 0, false⟩ : Sys).fdR = 5 ∧
    Step (⟨Loc.entry, Loc.entry, 5, 5, 0, false⟩ : Sys)
      ⟨Loc.entry, Loc.busy, 5, 5, 1, false⟩ ∧
    Step (⟨Loc.entry, Loc.busy, 5, 5, 1, false⟩ : Sys)
      (wrDirectRecoverFail ⟨Loc.entry, Loc.busy, 5, 5, 1, false⟩) ∧
    (wrDirectRecoverFail ⟨Loc.entry, Loc.busy, 5, 5, 1, false⟩).wLoc = Loc.dead ∧
    (wrDirectRecoverFail ⟨Loc.entry, Loc.busy, 5, 5, 1, false⟩).fdR = -1 ∧
    (wrDirectRecoverFail ⟨Loc.entry, Loc.busy, 5, 5, 1, false⟩).fdW = 5 := by
  refine ⟨?_, ?_, rfl, rfl, ?_, ?_, rfl, rfl, rfl⟩
  · have h01 : Step (initSys 3) ⟨Loc.busy, Loc.entry, 3, 3, 1, false⟩ :=
      Step.rEnterBusy _ rfl (by decide)
    have h12 : Step (⟨Loc.busy, Loc.entry, 3, 3, 1, false⟩ : Sys)
        ⟨Loc.busy, Loc.busy, 3, 3, 2, false⟩ :=
      Step.wEnterBusy _ rfl (by decide)
    have h23 : Step (⟨Loc.busy, Loc.busy, 3, 3, 2, false⟩ : Sys)
        ⟨Loc.waitSib, Loc.busy, 3, 3, 2, true⟩ :=
      Step.rIoFailDefer _ rfl rfl rfl
    have h34 : Step (⟨Loc.waitSib, Loc.busy, 3, 3, 2, true⟩ : Sys)
        ⟨Loc.wokenSib, Loc.entry, 3, 3, 1, true⟩ :=
      Step.wIoOk _ rfl
    have h45 : Step (⟨Loc.wokenSib, Loc.entry, 3, 3, 1, true⟩ : Sys)
        ⟨Loc.wokenSib, Loc.busy, 3, 3, 2, true⟩ :=
      Step.wEnterBusy _ rfl (by decide)
    have h56 : Step (⟨Loc.wokenSib, Loc.busy, 3, 3, 2, true⟩ : Sys)
        ⟨Loc.entry, Loc.busy, -1, -1, 1, false⟩ :=
      Step.rWokenRecoverFail _ rfl
    exact ((((((Relation.ReflTransGen.refl).tail h01).tail h12).tail h23).tail
      h34).tail h45).tail h56
  · exact Step.wDirectRecoverOk _ 5 rfl rfl (by decide) (by decide)
  · exact Step.wEnterBusy _ rfl (by decide)
  · exact Step.wDirectRecoverFail _ rfl rfl (by decide)

/-- C1 (amended): on a persistent paired interface, (read path) when
`reread` fails the reader sets both its own and its sibling's descriptor
field to -1 (tcp.c:367-371); (write path) when `reconnect` fails the
writer sets only its sibling's descriptor field to -1, leaves its own
unchanged, and exits its loop (tcp.c:464-470); every critical-region entry
that observes `fd == -1` exits without performing I/O or attempting
reconnection (tcp.c:332-340, 436-444); a write-path terminal failure
always yields a terminal (`Sticky`) configuration, a read-path terminal
failure yields one provided the writer is not concurrently inside its I/O
or pending recovery; and from any terminal configuration every further
step keeps the configuration terminal, so the descriptors then stay -1
(the counterexample shows the proviso cannot be dropped: a sibling still
inside writev when the descriptors are cleared may reconnect and overwrite
the -1). -/
theorem c1_amended :
    (∀ s : Sys, (rdDirectRecoverFail s).fdR = -1 ∧ (rdDirectRecoverFail s).fdW = -1 ∧
        (rdWokenRecoverFail s).fdR = -1 ∧ (rdWokenRecoverFail s).fdW = -1) ∧
    (∀ s : Sys, (wrDirectRecoverFail s).fdR = -1 ∧
        (wrDirectRecoverFail s).fdW = s.fdW ∧
        (wrDirectRecoverFail s).wLoc = Loc.dead ∧
        (wrWokenRecoverFail s).fdR = -1 ∧
        (wrWokenRecoverFail s).fdW = s.fdW ∧
        (wrWokenRecoverFail s).wLoc = Loc.dead) ∧
    (∀ s t : Sys, Step s t → s.rLoc = Loc.entry → s.fdR = -1 →
        t.rLoc = Loc.entry ∨ t.rLoc = Loc.dead) ∧
    (∀ s t : Sys, Step s t → s.wLoc = Loc.entry → s.fdW = -1 →
        t.wLoc = Loc.entry ∨ t.wLoc = Loc.dead) ∧
    (∀ s : Sys, Sticky (wrDirectRecoverFail s) ∧ Sticky (wrWokenRecoverFail s)) ∧
    (∀ s : Sys, s.wLoc = Loc.dead ∨ Quiet s.wLoc →
        Sticky (rdDirectRecoverFail s) ∧ Sticky (rdWokenRecoverFail s)) ∧
    (∀ s t : Sys, Sticky s → Step s t → Sticky t) := by
  refine ⟨fun s => ⟨rfl, rfl, rfl, rfl⟩, fun s => ⟨rfl, rfl, rfl, rfl, rfl, rfl⟩,
    fun s t hst hl hf => entry_exit_reader hst hl hf,
    fun s t hst hl hf => entry_exit_writer hst hl hf,
    fun s => ⟨⟨rfl, Or.inl rfl⟩, ⟨rfl, Or.inl rfl⟩⟩, ?_,
    fun s t hs hst => sticky_preserved hs hst⟩
  intro s hq
  constructor
  · refine ⟨rfl, ?_⟩
    rcases hq with hdead | hquiet
    · exact Or.inl hdead
    · exact Or.inr ⟨rfl, hquiet⟩
  · refine ⟨rfl, ?_⟩
    rcases hq with hdead | hquiet
    · left
      show (if s.fixing then wakeFix s.wLoc else s.wLoc) = Loc.dead
      simp [hdead, wakeFix, ite_self]
    · right
      refine ⟨rfl, ?_⟩
      show Quiet (if s.fixing then wakeFix s.wLoc else s.wLoc)
      cases hfix : s.fixing
      · simpa using hquiet
      · simpa using quiet_wakeFix hquiet

/-- C1 (witness): the amended theorem applied to a concrete terminal
state: the reader at its loop top with descriptor -1 and the writer
already exited takes the exit step, and the configuration is and stays
terminal. -/
theorem c1_amended_witness :
    ((⟨Loc.dead, Loc.dead, -1, 5, 0, false⟩ : Sys).rLoc = Loc.entry ∨
      (⟨Loc.dead, Loc.dead, -1, 5, 0, false⟩ : Sys).rLoc = Loc.dead) ∧
    Sticky ⟨Loc.dead, Loc.dead, -1, 5, 0, false⟩ := by
  constructor
  · exact c1_amended.2.2.1 ⟨Loc.entry, Loc.dead, -1, 5, 0, false⟩
      ⟨Loc.dead, Loc.dead, -1, 5, 0, false⟩
      (Step.rEnterDead _ rfl rfl) rfl rfl
  · exact c1_amended.2.2.2.2.2.2 ⟨Loc.entry, Loc.dead, -1, 5, 0, false⟩
      ⟨Loc.dead, Loc.dead, -1, 5, 0, false⟩ ⟨rfl, Or.inl rfl⟩
      (Step.rEnterDead _ rfl rfl)

end Kplex
